import Mathlib

/-!
Verification development for the AllocAIte staffing-allocation backend.

The definitions below are a shallow embedding of the Python modules
`backend/processing/nlp/task_scoring.py`, `backend/processing/nlp/task_matching.py`,
`backend/processing/availability_processing.py` and
`backend/processing/settings_processing.py`.  Python floats are modelled as
exact rationals (`ℚ`), calendar dates as integer day numbers (`ℤ`, with
`(b - a).days = b - a`), SQL rows as explicit lists passed in as arguments,
and the sentence-embedding model as an oracle function
`String → String → ℚ` (cosine similarity of the two encoded strings).
-/

/- ---------------------------------------------------------------
   Python string primitives
   --------------------------------------------------------------- -/

/-- Python `s.lower()`: lower-case every character (ASCII suffices here). -/
def pyLower (s : String) : String := ⟨s.data.map Char.toLower⟩

/-- Python `needle in haystack` on char lists: `needle` occurs contiguously. -/
def pyInChars (needle : List Char) : List Char → Bool
  | [] => needle.isEmpty
  | c :: rest => needle.isPrefixOf (c :: rest) || pyInChars needle rest

/-- Python substring test `needle in haystack` for strings. -/
def pyIn (needle haystack : String) : Bool := pyInChars needle.data haystack.data

/-- Python `s.strip()`: drop leading and trailing whitespace. -/
def pyStrip (s : String) : String :=
  ⟨((s.data.dropWhile Char.isWhitespace).reverse.dropWhile Char.isWhitespace).reverse⟩

/-- Python `s.replace(a, b)` for single-character `a`, `b`. -/
def pyReplaceChar (a b : Char) (s : String) : String :=
  ⟨s.data.map (fun c => if c = a then b else c)⟩

/-- Helper for `pySplit`: accumulate the current word (reversed) while
scanning the character list. -/
def pySplitAux : List Char → List Char → List String
  | [], acc => if acc.isEmpty then [] else [⟨acc.reverse⟩]
  | c :: rest, acc =>
    if c.isWhitespace then
      if acc.isEmpty then pySplitAux rest []
      else ⟨acc.reverse⟩ :: pySplitAux rest []
    else pySplitAux rest (c :: acc)

/-- Python `s.split()`: split on whitespace runs, dropping empty pieces. -/
def pySplit (s : String) : List String := pySplitAux s.data []

/- ---------------------------------------------------------------
   Python numeric primitives
   --------------------------------------------------------------- -/

/-- Python `round(x)`: round-half-to-even to an integer. -/
def roundHalfEven (q : ℚ) : ℤ :=
  let f := ⌊q⌋
  if q - f < 1/2 then f
  else if q - f > 1/2 then f + 1
  else if f % 2 = 0 then f else f + 1

/-- Python `round(x, 1)`: round-half-to-even at one decimal place. -/
def pyRound1 (q : ℚ) : ℚ := (roundHalfEven (q * 10) : ℚ) / 10

/- ---------------------------------------------------------------
   backend/processing/nlp/task_scoring.py
   --------------------------------------------------------------- -/

/-- `normalize_experience(experience, max_experience)` (task_scoring.py:9).
`if not max_experience: return 0.0` is the `max_experience = 0` test;
`experience or 0` (a guard against `None`) is the identity on a `ℚ` input. -/
def normalize_experience (experience max_experience : ℚ) : ℚ :=
  if max_experience = 0 then 0
  else max 0 (experience / max_experience)

/-- `compute_role_match(task_description, role)` (task_scoring.py:22).
`if not role` is the empty-string test; `word in td` is a substring test
against the whole lower-cased description. -/
def compute_role_match (task_description role : String) : ℚ :=
  if role = "" then 0
  else
    let td := pyLower task_description
    let role_lower := pyLower role
    if pyIn role_lower td then 1
    else if (pySplit role_lower).any (fun word => word ≠ "" && pyIn word td) then 0.6
    else 0.3

/-- `_determine_weights(skill_score)` (task_scoring.py:49): six weights
(semantic, skill, experience, role, availability, fairness), chosen by the
`skill_score > 0` branch. -/
def _determine_weights (skill_score : ℚ) : ℚ × ℚ × ℚ × ℚ × ℚ × ℚ :=
  if skill_score > 0 then (0.28, 0.30, 0.20, 0.10, 0.07, 0.05)
  else (0.33, 0.10, 0.20, 0.15, 0.17, 0.05)

/-- The tuple returned by `_determine_weights`, as a list (used to count and
sum the weights of the default profile). -/
def weights_as_list (w : ℚ × ℚ × ℚ × ℚ × ℚ × ℚ) : List ℚ :=
  [w.1, w.2.1, w.2.2.1, w.2.2.2.1, w.2.2.2.2.1, w.2.2.2.2.2]

/-- `_availability_label(percent)` (task_scoring.py:61). -/
def _availability_label (percent : ℤ) : String :=
  if percent ≥ 70 then "High availability"
  else if percent ≥ 40 then "Partial availability"
  else "Limited availability"

/-- `_build_reason(...)` (task_scoring.py:77): deterministic explanation text. -/
def _build_reason (skills goals : List String) (role_score : ℚ) (role : String)
    (experience : ℚ) (availability_percent : ℤ) (workload_score : ℚ) : String :=
  let part1 :=
    if skills ≠ [] then "Direct skill matches: " ++ String.intercalate ", " skills
    else "No direct skill overlap with this task"
  let part2 : List String :=
    if goals ≠ [] then ["Learning goals aligned: " ++ String.intercalate ", " goals]
    else []
  let part3 :=
    if role_score ≥ 0.8 then "Role as " ++ role ++ " fits the task directly"
    else if role_score ≥ 0.5 then "Role as " ++ role ++ " is related to the task"
    else "Role as " ++ role ++ " provides partial relevance"
  let part4 :=
    if experience ≥ 5 then "Strong experience (" ++ toString experience ++ " years)"
    else toString experience ++ " years of experience"
  let part5 :=
    if availability_percent ≥ 70 then "Fully available during the required timeframe"
    else if availability_percent ≥ 40 then "Partially available during the timeframe"
    else "Availability is limited for this period"
  let part6 :=
    if workload_score ≥ 0.75 then "Recent workload is lighter than average"
    else if workload_score ≥ 0.45 then "Recent workload is balanced"
    else "Recent workload is heavier than average"
  String.intercalate ". " ([part1] ++ part2 ++ [part3, part4, part5, part6]) ++ "."

/-- An employee row as consumed by the matching pipeline:
`{employee_id, name, role, experience, skills}`. -/
structure Employee where
  employee_id : ℤ
  name : String
  role : String
  experience : ℚ
  skills : List String
deriving DecidableEq, Repr

/-- The result dictionary built by `build_recommendation_entry`. -/
structure Entry where
  employee_id : ℤ
  name : String
  role : String
  score_percent : ℤ
  availability_percent : ℤ
  availability_label : String
  skills : List String
  learning_goals : List String
  workload_score : ℚ
  reason : String
  final_score : ℚ
deriving DecidableEq, Repr

/-- `build_recommendation_entry(...)` (task_scoring.py:133): the nine-parameter
scoring aggregator.  The final score is always the weighted sum under
`_determine_weights(skill_score)`; the function has no input for a
user-supplied weight profile. -/
def build_recommendation_entry (employee : Employee)
    (semantic_score skill_score experience_score role_score availability_score : ℚ)
    (matched_skills matched_goals : List String) (workload_score : ℚ) : Entry :=
  let w := _determine_weights skill_score
  let final_score :=
    w.1 * semantic_score + w.2.1 * skill_score + w.2.2.1 * experience_score +
    w.2.2.2.1 * role_score + w.2.2.2.2.1 * availability_score +
    w.2.2.2.2.2 * workload_score
  let score_percent := max 0 (min 100 (roundHalfEven (final_score * 100)))
  let availability_percent := max 0 (min 100 (roundHalfEven (availability_score * 100)))
  { employee_id := employee.employee_id
    name := employee.name
    role := employee.role
    score_percent := score_percent
    availability_percent := availability_percent
    availability_label := _availability_label availability_percent
    skills := matched_skills
    learning_goals := matched_goals
    workload_score := workload_score
    reason := _build_reason matched_skills matched_goals role_score employee.role
      employee.experience availability_percent workload_score
    final_score := final_score }

/- ---------------------------------------------------------------
   backend/processing/nlp/task_matching.py
   --------------------------------------------------------------- -/

/-- `semantic_skill_match(model, task_description, skills, threshold=0.45)`
(task_matching.py:34).  `simf` is the embedding-similarity oracle
(`util.cos_sim(model.encode(a), model.encode(b)).item()`).  Matches are
`(label, score)` pairs for the source's `{"label": ..., "score": ...}` dicts. -/
def semantic_skill_match (simf : String → String → ℚ)
    (task_description : String) (skills : List String) (threshold : ℚ) :
    List (String × ℚ) :=
  if skills = [] ∨ task_description = "" then []
  else
    let description := pyLower task_description
    let description_tokens := pySplit (pyReplaceChar ',' ' ' description)
    skills.filterMap (fun raw_skill =>
      let label := pyStrip raw_skill
      if label = "" then none
      else
        let normal := pyLower label
        let sim0 : ℚ :=
          if pyIn normal description then 1
          else if (pySplit (pyReplaceChar '/' ' ' normal)).any
              (fun tok => tok ≠ "" && description_tokens.contains tok) then 0.75
          else 0
        let sim1 : ℚ := if sim0 < 0.75 then max sim0 (simf description normal) else sim0
        if sim1 ≥ threshold then some (label, sim1) else none)

/-- `build_employee_text(emp)` (task_matching.py:87). -/
def build_employee_text (emp : Employee) : String :=
  emp.role ++ " with skills: " ++ String.intercalate ", " emp.skills ++
    ". experience: " ++ toString emp.experience ++ " years."

/-- The per-employee skill aggregation of `match_employees`
(task_matching.py:151-167): average matched-label score, coverage fraction,
and their maximum. -/
def skill_score_of (simf : String → String → ℚ)
    (task_description : String) (skills : List String) : ℚ :=
  let skill_matches := semantic_skill_match simf task_description skills 0.45
  let avg_skill_sim : ℚ :=
    if skill_matches = [] then 0
    else (skill_matches.map (fun m => m.2)).sum / (skill_matches.length : ℚ)
  let coverage : ℚ :=
    if skills = [] then 0
    else ((skill_matches.map (fun m => m.1)).length : ℚ) / (skills.length : ℚ)
  max avg_skill_sim coverage

/-- Python runtime errors surfaced by the pipeline model. -/
inductive PyError where
  | typeError
deriving DecidableEq, Repr

/-- Parameter count of `def build_recommendation_entry` (task_scoring.py:133):
employee, semantic_score, skill_score, experience_score, role_score,
availability_score, matched_skills, matched_goals, workload_score —
nine required positional parameters, none with a default. -/
def build_recommendation_entry_param_count : Nat := 9

/-- Argument count at the call site inside `match_employees`
(task_matching.py:176-184): emp, semantic, skill_score, exp_score,
role_score, availability, matched_labels — seven positional arguments. -/
def match_employees_call_arg_count : Nat := 7

/-- The call `build_recommendation_entry(emp, semantic, skill_score, exp_score,
role_score, availability, matched_labels)` made by `match_employees`
(task_matching.py:176).  CPython binds positional arguments at call time and
raises `TypeError` when fewer arguments than required parameters are supplied,
before the callee body runs; the `then` branch (in which the two missing
arguments `matched_goals` and `workload_score` would have been bound to the
values CPython would have received — there are none, so placeholder values
stand there) is unreachable because 7 ≠ 9. -/
def build_recommendation_entry_call7 (emp : Employee)
    (semantic skill_score exp_score role_score availability : ℚ)
    (matched_labels : List String) : Except PyError Entry :=
  if match_employees_call_arg_count = build_recommendation_entry_param_count then
    .ok (build_recommendation_entry emp semantic skill_score exp_score role_score
      availability matched_labels [] 0)
  else .error .typeError

/-- The body of the `for idx, emp in enumerate(employees)` loop of
`match_employees` (task_matching.py:139-185), for one employee.
`calc_avail` is the storage collaborator
`calculate_assignment_availability(employee_id, start_date, end_date)`. -/
def rank_employee (simf : String → String → ℚ) (calc_avail : ℤ → ℤ → ℤ → ℚ)
    (task_description : String) (start_date end_date : ℤ) (max_exp : ℚ)
    (emp : Employee) : Except PyError Entry :=
  let semantic := simf task_description (build_employee_text emp)
  let exp_score := normalize_experience emp.experience max_exp
  let role_score := compute_role_match task_description emp.role
  let skill_matches := semantic_skill_match simf task_description emp.skills 0.45
  let matched_labels := skill_matches.map (fun m => m.1)
  let skill_score := skill_score_of simf task_description emp.skills
  let availability := calc_avail emp.employee_id start_date end_date
  build_recommendation_entry_call7 emp semantic skill_score exp_score role_score
    availability matched_labels

/-- Stable insertion into a list sorted descending by `final_score`:
the inserted (originally earlier) element stays ahead of equal scores. -/
def insert_desc (x : Entry) : List Entry → List Entry
  | [] => [x]
  | y :: ys =>
    if y.final_score ≤ x.final_score then x :: y :: ys
    else y :: insert_desc x ys

/-- `sorted(ranked, key=lambda x: x["final_score"], reverse=True)`
(task_matching.py:188): stable descending sort by final score. -/
def sort_by_final_score_desc (l : List Entry) : List Entry :=
  l.foldr insert_desc []

/-- `match_employees(task_description, user_id, start_date, end_date)`
(task_matching.py:115).  The roster fetched by
`fetch_employees_by_user(user_id)` is passed in as `employees`; `simf` is the
sentence-model similarity oracle and `calc_avail` the storage availability
collaborator.  `max((e["experience"] for e in employees), default=1)` is
`max?` with default 1. -/
def match_employees (simf : String → String → ℚ) (calc_avail : ℤ → ℤ → ℤ → ℚ)
    (task_description : String) (employees : List Employee)
    (start_date end_date : ℤ) : Except PyError (List Entry) :=
  if employees.isEmpty then .ok []
  else
    let max_exp := ((employees.map (fun e => e.experience)).max?).getD 1
    match employees.mapM
        (rank_employee simf calc_avail task_description start_date end_date max_exp) with
    | .error err => .error err
    | .ok ranked => .ok (sort_by_final_score_desc ranked)

/- ---------------------------------------------------------------
   backend/processing/availability_processing.py
   --------------------------------------------------------------- -/

/-- One row of the `Assignments` overlap query
(`title, start_date, end_date, total_hours, remaining_hours`); the title is
never used by the computation and is omitted.  Dates are integer day numbers;
`none` hours model SQL `NULL` (turned into 0 by `float(x or 0)`), which also
covers the values the `try/except` conversion maps to 0. -/
structure ARow where
  start_date : ℤ
  end_date : ℤ
  total_hours : Option ℚ
  remaining_hours : Option ℚ
deriving DecidableEq, Repr

/-- The accumulation loop of `calculate_availability`
(availability_processing.py:46-67), returning the pair
`(total_hours, remaining_hours)` of the source; the second component is the
hours committed inside the window. -/
def accumulate_hours (window_start window_end : ℤ) (rows : List ARow) : ℚ × ℚ :=
  rows.foldl (fun acc row =>
    let t_hours : ℚ := row.total_hours.getD 0
    let r_hours : ℚ := row.remaining_hours.getD 0
    let assignment_days : ℤ := row.end_date - row.start_date + 1
    let window_days : ℤ := min row.end_date window_end - max row.start_date window_start + 1
    if assignment_days ≤ 0 ∨ window_days ≤ 0 then acc
    else
      let base_hours : ℚ := if r_hours > 0 then r_hours else t_hours
      let base_hours : ℚ := if base_hours ≤ 0 then ((assignment_days * 8 : ℤ) : ℚ) else base_hours
      let hours_per_day : ℚ := base_hours / (assignment_days : ℚ)
      (acc.1 + base_hours, acc.2 + hours_per_day * (window_days : ℚ)))
    (0, 0)

/-- The hours committed inside the query window (the source's
`remaining_hours` accumulator; the spec's `committed_hours`). -/
def committed_hours (rows : List ARow) (window_start window_end : ℤ) : ℚ :=
  (accumulate_hours window_start window_end rows).2

/-- `window_capacity = float((window_end - window_start).days + 1) * 8`
(availability_processing.py:69). -/
def window_capacity (window_start window_end : ℤ) : ℚ :=
  ((window_end - window_start + 1 : ℤ) : ℚ) * 8

/-- The clamped availability percentage
(availability_processing.py:74), before the 1-decimal rounding. -/
def availability_percent (rows : List ARow) (window_start window_end : ℤ) : ℚ :=
  max 0 (min 100
    ((1 - committed_hours rows window_start window_end / window_capacity window_start window_end) * 100))

/-- The status bands of `calculate_availability`
(availability_processing.py:77-82): `percent <= 30` Busy,
`elif 31 <= percent <= 50` Partial, else Available. -/
def availability_status (percent : ℚ) : String :=
  if percent ≤ 30 then "Busy"
  else if 31 ≤ percent ∧ percent ≤ 50 then "Partial"
  else "Available"

/-- `calculate_availability(employee_id, window_start, window_end)`
(availability_processing.py:17): the overlapping assignment rows fetched for
the employee are passed in as `rows`; the result is the
`{"status": ..., "percent": ...}` pair. -/
def calculate_availability (rows : List ARow) (window_start window_end : ℤ) :
    String × ℚ :=
  if rows.isEmpty then ("Available", 100)
  else
    let percent := availability_percent rows window_start window_end
    if window_capacity window_start window_end ≤ 0 then ("Busy", 0)
    else (availability_status percent, pyRound1 percent)

/- ---------------------------------------------------------------
   backend/processing/settings_processing.py
   --------------------------------------------------------------- -/

/-- The `weights` dict supplied to `persist_user_settings`: one entry per key
(semantic, skill, experience, role, availability, fairness, preferences).
`none` models a key that is missing, `None`, the empty string, or a value on
which `float(value)` raises — every case in which `_normalise_weights`
returns `None` for that key. -/
structure WeightInput where
  semantic : Option ℚ
  skill : Option ℚ
  experience : Option ℚ
  role : Option ℚ
  availability : Option ℚ
  fairness : Option ℚ
  preferences : Option ℚ
deriving DecidableEq, Repr

/-- A normalized weight profile (the dict returned by `_normalise_weights`). -/
structure NormWeights where
  semantic : ℚ
  skill : ℚ
  experience : ℚ
  role : ℚ
  availability : ℚ
  fairness : ℚ
  preferences : ℚ
deriving DecidableEq, Repr

/-- `_normalise_weights(weights)` (settings_processing.py:71): every one of
the seven keys must be present and convert to a non-negative number, the
total must be positive, and the result is each weight divided by the total. -/
def _normalise_weights (weights : WeightInput) : Option NormWeights :=
  match weights.semantic, weights.skill, weights.experience, weights.role,
      weights.availability, weights.fairness, weights.preferences with
  | some s, some k, some e, some r, some a, some f, some p =>
    if s < 0 ∨ k < 0 ∨ e < 0 ∨ r < 0 ∨ a < 0 ∨ f < 0 ∨ p < 0 then none
    else
      let total := s + k + e + r + a + f + p
      if total ≤ 0 then none
      else some ⟨s / total, k / total, e / total, r / total, a / total, f / total, p / total⟩
  | _, _, _, _, _, _, _ => none

/-- The `UserSettings` row for one user (`None` fields model SQL `NULL`). -/
structure StoredSettings where
  theme : Option String
  font_size : Option String
  use_custom_weights : Option Bool
  weight_semantic : Option ℚ
  weight_skill : Option ℚ
  weight_experience : Option ℚ
  weight_role : Option ℚ
  weight_availability : Option ℚ
  weight_fairness : Option ℚ
  weight_preferences : Option ℚ
deriving DecidableEq, Repr

/-- The error channel an HTTP-style rejection would use
(`raise HTTPException(status, message)`). -/
inductive HTTPError where
  | httpException (status : ℕ) (message : String)
deriving DecidableEq, Repr

/-- `persist_user_settings(user_id, theme, font_size, use_custom_weights,
weights)` (settings_processing.py:92).  `stored` is the user's `UserSettings`
row (the INSERT ... ON CONFLICT DO NOTHING guarantees it exists); the UPDATE
with `COALESCE(%s, column)` keeps the old value whenever the parameter is
NULL.  The function never raises for a malformed weight profile: when
`_normalise_weights` returns `None` all weight parameters are NULL and the
stored profile is kept, and the success message is returned regardless. -/
def persist_user_settings (stored : StoredSettings)
    (theme font_size : Option String) (use_custom_weights : Option Bool)
    (weights : Option WeightInput) : Except HTTPError (StoredSettings × String) :=
  let normalized : Option NormWeights :=
    match weights with
    | some w => _normalise_weights w
    | none => none
  .ok
    ({ theme := theme <|> stored.theme
       font_size := font_size <|> stored.font_size
       use_custom_weights := use_custom_weights <|> stored.use_custom_weights
       weight_semantic := (normalized.map fun n => n.semantic) <|> stored.weight_semantic
       weight_skill := (normalized.map fun n => n.skill) <|> stored.weight_skill
       weight_experience := (normalized.map fun n => n.experience) <|> stored.weight_experience
       weight_role := (normalized.map fun n => n.role) <|> stored.weight_role
       weight_availability := (normalized.map fun n => n.availability) <|> stored.weight_availability
       weight_fairness := (normalized.map fun n => n.fairness) <|> stored.weight_fairness
       weight_preferences := (normalized.map fun n => n.preferences) <|> stored.weight_preferences },
     "Settings updated")

/-- The all-zero weight profile of the C4 scenario. -/
def zero_weight_input : WeightInput :=
  ⟨some 0, some 0, some 0, some 0, some 0, some 0, some 0⟩

/-- A concrete stored `UserSettings` row holding a default-like profile. -/
def sample_settings_row : StoredSettings :=
  ⟨some "light", some "medium", some false,
   some 0.28, some 0.30, some 0.20, some 0.10, some 0.07, some 0.05, some 0⟩

/- ---------------------------------------------------------------
   Spec-modelled comparison definitions
   --------------------------------------------------------------- -/

/-- The final score the specification prescribes when the caller has supplied
a normalized custom weight profile (spec 4.6, "Weight selection: if the
caller supplies a normalized weight profile, use it verbatim";
`final_score = Σ weight_i × score_i`): the weighted sum of the six component
scores under the user's own weights.  Written from the spec's words, to be
compared with the aggregator implemented in the source (the spec names no
component score for the profile's seventh, `preferences`, weight). -/
def spec_custom_weighted_sum (w : NormWeights)
    (semantic skill experience role availability fairness : ℚ) : ℚ :=
  w.semantic * semantic + w.skill * skill + w.experience * experience +
    w.role * role + w.availability * availability + w.fairness * fairness

/- ---------------------------------------------------------------
   Claim theorems
   --------------------------------------------------------------- -/

/-- Claim C1: the ranking pipeline was claimed to return one sorted
recommendation entry per employee and `[]` for an empty roster.  The code
returns `[]` for the empty roster, but for any non-empty roster the call
`build_recommendation_entry(emp, semantic, skill_score, exp_score,
role_score, availability, matched_labels)` supplies 7 positional arguments
to a 9-parameter function and raises `TypeError`, so no ranking is ever
produced: evaluated here at a concrete one-employee roster. -/
theorem match_employees_raises_instead_of_ranking :
    match_employees (fun _ _ => 0) (fun _ _ _ => 1) "Fix the login page"
      [⟨1, "Alice", "developer", 3, ["python"]⟩] 0 4 = .error .typeError ∧
    match_employees (fun _ _ => 0) (fun _ _ _ => 1) "Fix the login page"
      [] 0 4 = .ok [] :=
  ⟨rfl, rfl⟩

/-- Claim C2: for every non-empty employee roster, `match_employees` raises
`TypeError` instead of returning, because it invokes
`build_recommendation_entry` with seven positional arguments while that
function has nine required parameters. -/
theorem match_employees_typeerror_on_nonempty_roster
    (simf : String → String → ℚ) (calc_avail : ℤ → ℤ → ℤ → ℚ)
    (task_description : String) (employees : List Employee)
    (start_date end_date : ℤ) (h : employees ≠ []) :
    match_employees simf calc_avail task_description employees start_date end_date =
      .error .typeError := by
  cases employees with
  | nil => exact absurd rfl h
  | cons e rest => rfl

/-- Witness for C2 at a concrete non-empty roster. -/
theorem match_employees_typeerror_witness :
    match_employees (fun _ _ => 1/2) (fun _ _ _ => 1) "Design a landing page"
      [⟨2, "Bob", "designer", 4, ["figma"]⟩] 10 12 = .error .typeError :=
  match_employees_typeerror_on_nonempty_roster (fun _ _ => 1/2) (fun _ _ _ => 1)
    "Design a landing page" [⟨2, "Bob", "designer", 4, ["figma"]⟩] 10 12
    (List.cons_ne_nil _ _)

/-- Counterexample to claim C3: a user-supplied, normalized custom weight
profile (all weight on `semantic`) is produced by `_normalise_weights`, yet
the aggregator's `final_score` is the default-heuristic weighted sum
(here 0.30), not the weighted sum under the user's weights (here 0). -/
theorem custom_profile_ignored_counterexample :
    _normalise_weights ⟨some 1, some 0, some 0, some 0, some 0, some 0, some 0⟩ =
      some ⟨1, 0, 0, 0, 0, 0, 0⟩ ∧
    (build_recommendation_entry ⟨1, "Alice", "developer", 3, ["python"]⟩
        0 1 0 0 0 ["python"] [] 0).final_score ≠
      spec_custom_weighted_sum ⟨1, 0, 0, 0, 0, 0, 0⟩ 0 1 0 0 0 0 := by
  constructor
  · norm_num [_normalise_weights]
  · norm_num [build_recommendation_entry, _determine_weights, spec_custom_weighted_sum]

/-- Amended claim C3: the Scoring Aggregator has no input for a custom
weight profile at all — `final_score` is always the weighted sum of the six
component scores under the default heuristic weights
`_determine_weights(skill_score)`, whatever weight profile the user has
stored. -/
theorem final_score_always_default_heuristic (employee : Employee)
    (semantic_score skill_score experience_score role_score availability_score : ℚ)
    (matched_skills matched_goals : List String) (workload_score : ℚ) :
    (build_recommendation_entry employee semantic_score skill_score experience_score
        role_score availability_score matched_skills matched_goals
        workload_score).final_score =
      (_determine_weights skill_score).1 * semantic_score +
      (_determine_weights skill_score).2.1 * skill_score +
      (_determine_weights skill_score).2.2.1 * experience_score +
      (_determine_weights skill_score).2.2.2.1 * role_score +
      (_determine_weights skill_score).2.2.2.2.1 * availability_score +
      (_determine_weights skill_score).2.2.2.2.2 * workload_score :=
  rfl

/-- Claim C6: one assignment requiring all 40 hours over a 5-day span that
fills the 5-day query window gives committed hours 40, window capacity 40,
availability 0% with status Busy; an employee with no overlapping
assignments gets 100% Available, whatever the window. -/
theorem availability_forty_hour_and_empty_scenarios :
    calculate_availability [⟨0, 4, some 40, some 40⟩] 0 4 = ("Busy", 0) ∧
    committed_hours [⟨0, 4, some 40, some 40⟩] 0 4 = 40 ∧
    window_capacity 0 4 = 40 ∧
    ∀ window_start window_end : ℤ,
      calculate_availability [] window_start window_end = ("Available", 100) := by
  refine ⟨?_, ?_, ?_, fun _ _ => rfl⟩
  · norm_num [calculate_availability, availability_percent, committed_hours,
      accumulate_hours, window_capacity, availability_status, pyRound1, roundHalfEven]
  · norm_num [committed_hours, accumulate_hours]
  · norm_num [window_capacity]

/-- Counterexample to claim C10: the default weight profile returned by
`_determine_weights` consists of six weights, not seven. -/
theorem default_profile_has_six_weights :
    (weights_as_list (_determine_weights 1)).length = 6 ∧
    (weights_as_list (_determine_weights 0)).length = 6 ∧
    (weights_as_list (_determine_weights 1)).length ≠ 7 := by
  refine ⟨rfl, rfl, ?_⟩
  norm_num [weights_as_list]

/-- Amended claim C10: the default weight heuristic selects exactly the
specified weights per branch (`skill_score > 0` versus not), and in each
branch the default profile's six weights sum exactly to 1. -/
theorem default_weights_branches_sum_one (skill_score : ℚ) :
    (0 < skill_score →
      _determine_weights skill_score = (0.28, 0.30, 0.20, 0.10, 0.07, 0.05) ∧
      (weights_as_list (_determine_weights skill_score)).sum = 1) ∧
    (¬0 < skill_score →
      _determine_weights skill_score = (0.33, 0.10, 0.20, 0.15, 0.17, 0.05) ∧
      (weights_as_list (_determine_weights skill_score)).sum = 1) := by
  constructor <;> intro h <;>
    refine ⟨by simp [_determine_weights, h], ?_⟩ <;>
    simp [_determine_weights, h, weights_as_list] <;> norm_num

/-- Witness for C10 at the concrete branch inputs 1 and 0. -/
theorem default_weights_branches_witness :
    (_determine_weights 1 = (0.28, 0.30, 0.20, 0.10, 0.07, 0.05) ∧
      (weights_as_list (_determine_weights 1)).sum = 1) ∧
    (_determine_weights 0 = (0.33, 0.10, 0.20, 0.15, 0.17, 0.05) ∧
      (weights_as_list (_determine_weights 0)).sum = 1) :=
  ⟨(default_weights_branches_sum_one 1).1 (by norm_num),
   (default_weights_branches_sum_one 0).2 (by norm_num)⟩

/-- Counterexample to claim C4: the all-zero (zero-sum) weight profile is not
rejected with a validation error — `persist_user_settings` completes
successfully, leaves the stored row unchanged, and answers
"Settings updated". -/
theorem invalid_weights_accepted_counterexample :
    _normalise_weights zero_weight_input = none ∧
    persist_user_settings sample_settings_row none none none (some zero_weight_input) =
      .ok (sample_settings_row, "Settings updated") := by
  constructor
  · norm_num [_normalise_weights, zero_weight_input]
  · simp [persist_user_settings, _normalise_weights, zero_weight_input]

/-- Amended claim C4: for every malformed weight profile (any key missing or
non-numeric, any weight negative, or the seven weights summing to ≤ 0),
`persist_user_settings` leaves the stored weight profile unchanged, but it
raises no validation error: the invalid profile is silently dropped and the
call returns the success message "Settings updated". -/
theorem persist_drops_invalid_weights_silently (stored : StoredSettings)
    (theme font_size : Option String) (use_custom_weights : Option Bool)
    (w : WeightInput) (h : _normalise_weights w = none) :
    persist_user_settings stored theme font_size use_custom_weights (some w) =
      .ok ({ stored with
              theme := theme <|> stored.theme
              font_size := font_size <|> stored.font_size
              use_custom_weights := use_custom_weights <|> stored.use_custom_weights },
        "Settings updated") := by
  simp [persist_user_settings, h]

/-- Witness for C4 at the all-zero profile and a concrete stored row. -/
theorem persist_drops_invalid_weights_witness :
    persist_user_settings sample_settings_row none none none (some zero_weight_input) =
      .ok ({ sample_settings_row with
              theme := none <|> sample_settings_row.theme
              font_size := none <|> sample_settings_row.font_size
              use_custom_weights := none <|> sample_settings_row.use_custom_weights },
        "Settings updated") :=
  persist_drops_invalid_weights_silently sample_settings_row none none none
    zero_weight_input (by norm_num [_normalise_weights, zero_weight_input])

/-- The status bands of `availability_status`, fully characterized: the code
leaves the open interval (30, 31) to the `else` branch, which returns
"Available". -/
theorem availability_status_cases (p : ℚ) :
    (availability_status p = "Busy" ↔ p ≤ 30) ∧
    (availability_status p = "Partial" ↔ 31 ≤ p ∧ p ≤ 50) ∧
    (availability_status p = "Available" ↔ 50 < p ∨ (30 < p ∧ p < 31)) := by
  unfold availability_status
  split_ifs with h1 h2
  · refine ⟨⟨fun _ => h1, fun _ => rfl⟩, ?_, ?_⟩
    · constructor
      · intro hc; exact absurd hc (by decide)
      · rintro ⟨h31, _⟩; linarith
    · constructor
      · intro hc; exact absurd hc (by decide)
      · rintro (hgt | ⟨hgt, _⟩) <;> linarith
  · refine ⟨?_, ⟨fun _ => h2, fun _ => rfl⟩, ?_⟩
    · constructor
      · intro hc; exact absurd hc (by decide)
      · intro h30; linarith [h2.1]
    · constructor
      · intro hc; exact absurd hc (by decide)
      · rintro (hgt | ⟨_, hlt⟩) <;> [linarith [h2.2]; linarith [h2.1]]
  · push_neg at h1
    refine ⟨?_, ?_, ⟨fun _ => ?_, fun _ => rfl⟩⟩
    · constructor
      · intro hc; exact absurd hc (by decide)
      · intro h30; linarith
    · constructor
      · intro hc; exact absurd hc (by decide)
      · intro hc; exact absurd hc h2
    · rcases lt_or_le 50 p with h50 | h50
      · exact Or.inl h50
      · refine Or.inr ⟨h1, ?_⟩
        by_contra hge
        push_neg at hge
        exact h2 ⟨hge, h50⟩

/-- Counterexample to claim C5: a single overlapping assignment with 5.56
remaining hours in a one-day window yields the unclamped, unrounded percent
30.5 ∈ (30, 31); the returned status is "Available" although 30.5 is not
greater than 50 — the claimed bands are neither matched nor exhaustive. -/
theorem availability_band_gap_counterexample :
    calculate_availability [⟨0, 0, some 8, some (139/25)⟩] 0 0 = ("Available", 61/2) ∧
    availability_percent [⟨0, 0, some 8, some (139/25)⟩] 0 0 = 61/2 ∧
    ¬(50 < (61/2 : ℚ)) ∧ (30 < (61/2 : ℚ) ∧ (61/2 : ℚ) < 31) := by
  refine ⟨?_, ?_, by norm_num, by norm_num⟩
  · norm_num [calculate_availability, availability_percent, committed_hours,
      accumulate_hours, window_capacity, availability_status, pyRound1, roundHalfEven]
  · norm_num [availability_percent, committed_hours, accumulate_hours, window_capacity]

/-- Amended claim C5: with at least one overlapping assignment and positive
window capacity, the status follows the bands over the unrounded percent p:
Busy exactly when p ≤ 30, Partial exactly when 31 ≤ p ≤ 50, and Available
exactly when p > 50 or 30 < p < 31 (the code leaves the gap (30, 31) to
Available). -/
theorem availability_status_bands (rows : List ARow) (window_start window_end : ℤ)
    (h1 : rows ≠ []) (h2 : 0 < window_capacity window_start window_end) :
    ((calculate_availability rows window_start window_end).1 = "Busy" ↔
      availability_percent rows window_start window_end ≤ 30) ∧
    ((calculate_availability rows window_start window_end).1 = "Partial" ↔
      31 ≤ availability_percent rows window_start window_end ∧
        availability_percent rows window_start window_end ≤ 50) ∧
    ((calculate_availability rows window_start window_end).1 = "Available" ↔
      50 < availability_percent rows window_start window_end ∨
        (30 < availability_percent rows window_start window_end ∧
          availability_percent rows window_start window_end < 31)) := by
  have hne : rows.isEmpty = false := by
    cases rows with
    | nil => exact absurd rfl h1
    | cons a l => rfl
  have hcap : ¬ window_capacity window_start window_end ≤ 0 := not_le.mpr h2
  have hcalc : (calculate_availability rows window_start window_end).1 =
      availability_status (availability_percent rows window_start window_end) := by
    simp [calculate_availability, hne, hcap]
  rw [hcalc]
  exact availability_status_cases (availability_percent rows window_start window_end)

/-- Witness for C5 at the concrete 40-of-40-hours scenario (percent 0). -/
theorem availability_status_bands_witness :
    ((calculate_availability [⟨0, 4, some 40, some 40⟩] 0 4).1 = "Busy" ↔
      availability_percent [⟨0, 4, some 40, some 40⟩] 0 4 ≤ 30) ∧
    ((calculate_availability [⟨0, 4, some 40, some 40⟩] 0 4).1 = "Partial" ↔
      31 ≤ availability_percent [⟨0, 4, some 40, some 40⟩] 0 4 ∧
        availability_percent [⟨0, 4, some 40, some 40⟩] 0 4 ≤ 50) ∧
    ((calculate_availability [⟨0, 4, some 40, some 40⟩] 0 4).1 = "Available" ↔
      50 < availability_percent [⟨0, 4, some 40, some 40⟩] 0 4 ∨
        (30 < availability_percent [⟨0, 4, some 40, some 40⟩] 0 4 ∧
          availability_percent [⟨0, 4, some 40, some 40⟩] 0 4 < 31)) :=
  availability_status_bands [⟨0, 4, some 40, some 40⟩] 0 4
    (List.cons_ne_nil _ _) (by norm_num [window_capacity])

/-- Counterexample to claim C7: for the empty role title the function
returns 0, which is none of 1.0, 0.6, 0.3. -/
theorem role_match_zero_counterexample :
    compute_role_match "deploy the api" "" = 0 ∧
    ¬((0 : ℚ) = 1 ∨ (0 : ℚ) = 0.6 ∨ (0 : ℚ) = 0.3) := by
  constructor
  · norm_num [compute_role_match]
  · norm_num

/-- Amended claim C7: for every task description and every non-empty role
title, `compute_role_match` returns a score in {1.0, 0.6, 0.3} and never 0:
1.0 exactly when the lower-cased role appears as a substring of the
lower-cased description, 0.6 exactly when it does not but some word of the
role occurs inside the lower-cased description, and 0.3 otherwise. -/
theorem role_match_characterization (task_description role : String)
    (h : role ≠ "") :
    (compute_role_match task_description role = 1 ∨
     compute_role_match task_description role = 0.6 ∨
     compute_role_match task_description role = 0.3) ∧
    compute_role_match task_description role ≠ 0 ∧
    (compute_role_match task_description role = 1 ↔
      pyIn (pyLower role) (pyLower task_description) = true) ∧
    (compute_role_match task_description role = 0.6 ↔
      pyIn (pyLower role) (pyLower task_description) = false ∧
      (pySplit (pyLower role)).any
        (fun word => word ≠ "" && pyIn word (pyLower task_description)) = true) := by
  unfold compute_role_match
  rw [if_neg h]
  dsimp only
  split_ifs with h1 h2
  · refine ⟨Or.inl rfl, by norm_num, ⟨fun _ => h1, fun _ => rfl⟩, ?_⟩
    constructor
    · intro hc; exact absurd hc (by norm_num)
    · rintro ⟨hfalse, _⟩
      rw [h1] at hfalse
      simp at hfalse
  · have hfalse : pyIn (pyLower role) (pyLower task_description) = false := by
      cases hcase : pyIn (pyLower role) (pyLower task_description) with
      | true => exact absurd hcase h1
      | false => rfl
    refine ⟨Or.inr (Or.inl rfl), by norm_num,
      ⟨fun hc => absurd hc (by norm_num), fun htrue => absurd htrue h1⟩,
      ⟨fun _ => ⟨hfalse, h2⟩, fun _ => rfl⟩⟩
  · refine ⟨Or.inr (Or.inr rfl), by norm_num,
      ⟨fun hc => absurd hc (by norm_num), fun htrue => absurd htrue h1⟩, ?_⟩
    constructor
    · intro hc; exact absurd hc (by norm_num)
    · rintro ⟨_, hany⟩; exact absurd hany h2

/-- Counterexample to claim C8: the label " " (whitespace only) lower-cases
to a verbatim substring of the description "a b", yet the matcher strips it
to the empty string and skips it, so the result contains no entry for it. -/
theorem whitespace_label_dropped_counterexample :
    pyIn (pyLower " ") (pyLower "a b") = true ∧
    semantic_skill_match (fun _ _ => 0) "a b" [" "] 0.45 = [] := by
  constructor
  · decide
  · decide

/-- Amended claim C8: for every skill label that carries no leading or
trailing whitespace and is non-empty, if its lower-casing occurs verbatim
inside the lower-cased task description then `semantic_skill_match`
(at its default threshold 0.45) returns that label with score exactly 1,
for every embedding oracle — the embedding tier never lowers it. -/
theorem exact_substring_scores_one (simf : String → String → ℚ)
    (task_description : String) (skills : List String) (label : String)
    (hmem : label ∈ skills) (hstrip : pyStrip label = label) (hne : label ≠ "")
    (hsub : pyIn (pyLower label) (pyLower task_description) = true) :
    (label, 1) ∈ semantic_skill_match simf task_description skills 0.45 := by
  have hskills : skills ≠ [] := List.ne_nil_of_mem hmem
  have hdesc : task_description ≠ "" := by
    intro h0
    rw [h0] at hsub
    have hsub2 : (pyLower label).data.isEmpty = true := hsub
    have hdata : label.data.map Char.toLower = [] := by
      have := List.isEmpty_iff.mp hsub2
      exact this
    have hld : label.data = [] := List.map_eq_nil_iff.mp hdata
    apply hne
    cases label with
    | mk d =>
      cases hld
      decide
  unfold semantic_skill_match
  rw [if_neg (not_or.mpr ⟨hskills, hdesc⟩)]
  refine List.mem_filterMap.mpr ⟨label, hmem, ?_⟩
  dsimp only
  rw [hstrip, if_neg hne, if_pos hsub]
  norm_num

/-- Witness for C8: "Python" occurs verbatim in the task description and is
matched with score exactly 1. -/
theorem exact_substring_scores_one_witness :
    ("Python", 1) ∈ semantic_skill_match (fun _ _ => 0)
      "Needs Python and SQL support" ["Python", "Figma"] 0.45 :=
  exact_substring_scores_one (fun _ _ => 0) "Needs Python and SQL support"
    ["Python", "Figma"] "Python" (by decide) (by decide) (by decide) (by decide)

/-- Claim C9: the per-employee skill score (the maximum of the average
matched-label score and the coverage fraction) is invariant under any
permutation of the employee's skill list, the task description held fixed. -/
theorem skill_score_perm_invariant (simf : String → String → ℚ)
    (task_description : String) (skills1 skills2 : List String)
    (h : skills1.Perm skills2) :
    skill_score_of simf task_description skills1 =
      skill_score_of simf task_description skills2 := by
  have hm : (semantic_skill_match simf task_description skills1 0.45).Perm
      (semantic_skill_match simf task_description skills2 0.45) := by
    unfold semantic_skill_match
    by_cases hd : task_description = ""
    · simp [hd]
    · by_cases h1 : skills1 = []
      · have h2 : skills2 = [] := by
          rw [h1] at h
          exact List.perm_nil.mp h.symm
        simp [h1, h2]
      · have h2 : skills2 ≠ [] := by
          intro h2
          rw [h2] at h
          exact h1 (List.perm_nil.mp h)
        rw [if_neg (not_or.mpr ⟨h1, hd⟩), if_neg (not_or.mpr ⟨h2, hd⟩)]
        exact h.filterMap _
  have hlen : (semantic_skill_match simf task_description skills1 0.45).length =
      (semantic_skill_match simf task_description skills2 0.45).length := hm.length_eq
  have hsum :
      ((semantic_skill_match simf task_description skills1 0.45).map
        (fun m => m.2)).sum =
      ((semantic_skill_match simf task_description skills2 0.45).map
        (fun m => m.2)).sum :=
    (hm.map (fun m => m.2)).sum_eq
  have hnil : semantic_skill_match simf task_description skills1 0.45 = [] ↔
      semantic_skill_match simf task_description skills2 0.45 = [] := by
    constructor <;> intro h0
    · rw [h0] at hm
      exact List.perm_nil.mp hm.symm
    · rw [h0] at hm
      exact List.perm_nil.mp hm
  have hsl : skills1.length = skills2.length := h.length_eq
  have hslnil : skills1 = [] ↔ skills2 = [] := by
    constructor <;> intro h0
    · rw [h0] at h
      exact List.perm_nil.mp h.symm
    · rw [h0] at h
      exact List.perm_nil.mp h
  unfold skill_score_of
  dsimp only
  congr 1
  · by_cases hn : semantic_skill_match simf task_description skills1 0.45 = []
    · rw [if_pos hn, if_pos (hnil.mp hn)]
    · rw [if_neg hn, if_neg (fun hc => hn (hnil.mpr hc)), hsum, hlen]
  · by_cases hs : skills1 = []
    · rw [if_pos hs, if_pos (hslnil.mp hs)]
    · rw [if_neg hs, if_neg (fun hc => hs (hslnil.mpr hc))]
      rw [List.length_map, List.length_map, hlen, hsl]

/-- Witness for C9: swapping the two skills of a concrete list leaves the
skill score unchanged. -/
theorem skill_score_perm_witness :
    skill_score_of (fun _ _ => 0) "Needs Python and SQL support"
      ["Python", "Figma"] =
    skill_score_of (fun _ _ => 0) "Needs Python and SQL support"
      ["Figma", "Python"] :=
  skill_score_perm_invariant (fun _ _ => 0) "Needs Python and SQL support"
    ["Python", "Figma"] ["Figma", "Python"] (List.Perm.swap "Figma" "Python" [])

/-- Witness for C7 at a concrete non-empty role title. -/
theorem role_match_characterization_witness :
    (compute_role_match "need a senior developer" "developer" = 1 ∨
     compute_role_match "need a senior developer" "developer" = 0.6 ∨
     compute_role_match "need a senior developer" "developer" = 0.3) ∧
    compute_role_match "need a senior developer" "developer" ≠ 0 ∧
    (compute_role_match "need a senior developer" "developer" = 1 ↔
      pyIn (pyLower "developer") (pyLower "need a senior developer") = true) ∧
    (compute_role_match "need a senior developer" "developer" = 0.6 ↔
      pyIn (pyLower "developer") (pyLower "need a senior developer") = false ∧
      (pySplit (pyLower "developer")).any
        (fun word => word ≠ "" && pyIn word (pyLower "need a senior developer")) = true) :=
  role_match_characterization "need a senior developer" "developer" (by decide)
